import Mathlib

/-!
Verification of the swimmingly data-fusion and scoring engine.

The development shallowly embeds the TypeScript sources of the repository:
* `src/config/thresholds.ts` — the `SAFETY_THRESHOLDS`, `SCORE_WEIGHTS` and
  `SCORE_RANGES` constant tables;
* `src/types/conditions.ts` — the reading and score data model;
* `src/lib/algorithms/swim-score.ts` — the five factor scorers, the weighted
  overall score, the rating buckets and the advice generator;
* `src/lib/api/cdec.ts` — `determineReleaseLevel`;
* the conditions orchestrator (preference-aware `GET` route) — the critical
  tide check and its per-source diagnostics;
* `src/lib/static/generateStaticData.ts` — the wave-provider fallback chain
  and the per-source fallback values.

JavaScript dynamic semantics that matter here are made explicit:
* a possibly-NaN JavaScript number is `Option ℚ`, `none` playing NaN (and the
  `undefined` that arithmetic turns into NaN);
* reading an absent object key yields `undefined`; the absent keys of the
  shipped `thresholds.ts` table (`SCORE_WEIGHTS.damReleases`,
  `SAFETY_THRESHOLDS.damReleases`, `SAFETY_THRESHOLDS.tide.phasePreference`)
  are embedded as `none`-valued constants next to the key lists of the table;
* a property access on `undefined` raises a TypeError: functions that can hit
  one return `Except JsError _`;
* dates are epoch milliseconds (`ℚ`); string formatting of numbers inside
  generated issue strings is abstracted by `jsNumberString`.
-/

namespace Swimmingly

/-- Runtime error of the JavaScript evaluation: a property access on
`undefined` (the only failure the embedded code can hit). -/
inductive JsError where
  | typeError
deriving DecidableEq, Repr

/-- Addition of possibly-NaN JavaScript numbers (`none` = NaN): NaN propagates. -/
def jsAdd : Option ℚ → Option ℚ → Option ℚ
  | some a, some b => some (a + b)
  | _, _ => none

/-- Multiplication of possibly-NaN JavaScript numbers; multiplying by
`undefined` also yields NaN, which this same `none` case covers. -/
def jsMul : Option ℚ → Option ℚ → Option ℚ
  | some a, some b => some (a * b)
  | _, _ => none

/-- Division of possibly-NaN JavaScript numbers (the embedded code only ever
divides by the constant 100). -/
def jsDiv : Option ℚ → Option ℚ → Option ℚ
  | some a, some b => some (a / b)
  | _, _ => none

/-- JavaScript `Math.round` (round half toward positive infinity); NaN stays
NaN. -/
def jsRound : Option ℚ → Option ℚ
  | some a => some ((round a : ℤ) : ℚ)
  | none => none

/-- JavaScript `x >= b` for a possibly-NaN `x`: every comparison with NaN is
false. -/
def jsGe (a : Option ℚ) (b : ℚ) : Bool :=
  match a with
  | some a => decide (b ≤ a)
  | none => false

/-- JavaScript `x > b` for a possibly-`undefined` `x`: `undefined > b` is
false (the comparison goes through NaN). -/
def jsGt (a : Option ℚ) (b : ℚ) : Bool :=
  match a with
  | some a => decide (b < a)
  | none => false

/-- Placeholder for the JavaScript number formatting (`toFixed`,
`toLocaleString`, `Math.round` inside template strings) used when the scorers
build issue strings. No claim depends on the exact digits. -/
def jsNumberString (q : ℚ) : String := toString q

/-- Helper for `strIncludes`: does the second character list start with the
first one. -/
def listStartsWith : List Char → List Char → Bool
  | [], _ => true
  | _ :: _, [] => false
  | p :: ps, c :: cs => p == c && listStartsWith ps cs

/-- Helper for `strIncludes`: does the second character list contain the
first one as a contiguous run. -/
def listIncludes (pat : List Char) : List Char → Bool
  | [] => listStartsWith pat []
  | c :: cs => listStartsWith pat (c :: cs) || listIncludes pat cs

/-- JavaScript substring test `s.includes(pat)`. -/
def strIncludes (s pat : String) : Bool := listIncludes pat.toList s.toList

/-! ## Threshold and weight tables, src/config/thresholds.ts -/

/-- Source: SAFETY_THRESHOLDS.waterQuality.enterococcus (MPN/100ml). -/
structure EnterococcusThresholds where
  safe : ℚ
  advisory : ℚ
  dangerous : ℚ
deriving DecidableEq, Repr

/-- Source: SAFETY_THRESHOLDS.waterQuality.coliform. -/
structure ColiformThresholds where
  safe : ℚ
  advisory : ℚ
  dangerous : ℚ
deriving DecidableEq, Repr

/-- Source: SAFETY_THRESHOLDS.waterQuality. -/
structure WaterQualityThresholds where
  enterococcus : EnterococcusThresholds
  coliform : ColiformThresholds
deriving DecidableEq, Repr

/-- Source: SAFETY_THRESHOLDS.waves (feet). -/
structure WaveThresholds where
  calm : ℚ
  safe : ℚ
  moderate : ℚ
  rough : ℚ
deriving DecidableEq, Repr

/-- Source: SAFETY_THRESHOLDS.wind (mph). -/
structure WindThresholds where
  calm : ℚ
  light : ℚ
  moderate : ℚ
  strong : ℚ
  veryStrong : ℚ
deriving DecidableEq, Repr

/-- Source: SAFETY_THRESHOLDS.current (knots). -/
structure CurrentThresholds where
  slack : ℚ
  slow : ℚ
  moderate : ℚ
  strong : ℚ
  veryStrong : ℚ
deriving DecidableEq, Repr

/-- Source: SAFETY_THRESHOLDS.waterTemp (Fahrenheit). -/
structure WaterTempThresholds where
  cold : ℚ
  cool : ℚ
  moderate : ℚ
  comfortable : ℚ
deriving DecidableEq, Repr

/-- Source: SAFETY_THRESHOLDS.visibility (miles). -/
structure VisibilityThresholds where
  poor : ℚ
  moderate : ℚ
  good : ℚ
  excellent : ℚ
deriving DecidableEq, Repr

/-- Source: SAFETY_THRESHOLDS.sso (sanitary sewer overflow time windows). -/
structure SsoThresholds where
  cautionDays : ℚ
  warningDays : ℚ
  proximityMiles : ℚ
deriving DecidableEq, Repr

/-- Source: SAFETY_THRESHOLDS.tide (feet per hour). The shipped table has
exactly the three fields below — in particular it has no `phasePreference`
entry. -/
structure TideThresholds where
  slackWindow : ℚ
  lowCurrent : ℚ
  moderateCurrent : ℚ
deriving DecidableEq, Repr

/-- Source: the top-level shape of SAFETY_THRESHOLDS in
src/config/thresholds.ts. These eight keys are all the keys the shipped
table has. -/
structure SafetyThresholds where
  waterQuality : WaterQualityThresholds
  waves : WaveThresholds
  wind : WindThresholds
  current : CurrentThresholds
  waterTemp : WaterTempThresholds
  visibility : VisibilityThresholds
  sso : SsoThresholds
  tide : TideThresholds
deriving DecidableEq, Repr

/-- Source: the SAFETY_THRESHOLDS constant of src/config/thresholds.ts. -/
def SAFETY_THRESHOLDS : SafetyThresholds where
  waterQuality :=
    { enterococcus := { safe := 104, advisory := 500, dangerous := 1000 }
      coliform := { safe := 200, advisory := 1000, dangerous := 2000 } }
  waves := { calm := 2, safe := 3, moderate := 5, rough := 8 }
  wind := { calm := 5, light := 10, moderate := 15, strong := 20, veryStrong := 25 }
  current := { slack := 0.3, slow := 0.5, moderate := 1.0, strong := 1.5, veryStrong := 2.0 }
  waterTemp := { cold := 55, cool := 60, moderate := 65, comfortable := 70 }
  visibility := { poor := 1, moderate := 3, good := 5, excellent := 10 }
  sso := { cautionDays := 3, warningDays := 7, proximityMiles := 2 }
  tide := { slackWindow := 0.5, lowCurrent := 1.0, moderateCurrent := 2.0 }

/-- The key list of the SAFETY_THRESHOLDS object literal, in source order. -/
def SAFETY_THRESHOLDS_keys : List String :=
  ["waterQuality", "waves", "wind", "current", "waterTemp", "visibility", "sso", "tide"]

/-- The key list of the SAFETY_THRESHOLDS.tide object literal. -/
def SAFETY_THRESHOLDS_tide_keys : List String :=
  ["slackWindow", "lowCurrent", "moderateCurrent"]

/-- Tide phase preference weights (src/types/conditions.ts,
TidePhasePreferences): one 0..100 weight per phase. -/
structure TidePhasePreferences where
  slack : ℚ
  flood : ℚ
  ebb : ℚ
deriving DecidableEq, Repr

/-- The JavaScript property read `SAFETY_THRESHOLDS.tide.phasePreference`
performed by `scoreTideAndCurrent` (swim-score.ts line 169): the shipped
`tide` group only has the keys of `SAFETY_THRESHOLDS_tide_keys`, so the read
evaluates to `undefined`, embedded as `none`. -/
def SAFETY_THRESHOLDS_tide_phasePreference : Option TidePhasePreferences := none

/-- Shape the dam-release scorer expects for `SAFETY_THRESHOLDS.damReleases`
(swim-score.ts lines 328-350 read `.extreme`, `.high`, `.moderate`, `.low`). -/
structure DamReleaseThresholds where
  low : ℚ
  moderate : ℚ
  high : ℚ
  extreme : ℚ
deriving DecidableEq, Repr

/-- The JavaScript property read `SAFETY_THRESHOLDS.damReleases` performed by
`scoreDamReleases` (swim-score.ts line 328): the shipped table has only the
keys of `SAFETY_THRESHOLDS_keys`, `damReleases` not among them, so the read
evaluates to `undefined`, embedded as `none`. -/
def SAFETY_THRESHOLDS_damReleases : Option DamReleaseThresholds := none

/-- Source: the SCORE_WEIGHTS constant of src/config/thresholds.ts. The
shipped table has exactly these five keys — the fifth weight is named
`visibility`, not `damReleases`. -/
structure ScoreWeights where
  waterQuality : ℚ
  tideAndCurrent : ℚ
  waves : ℚ
  weather : ℚ
  visibility : ℚ
deriving DecidableEq, Repr

/-- Source: SCORE_WEIGHTS values (src/config/thresholds.ts lines 84-90). -/
def SCORE_WEIGHTS : ScoreWeights where
  waterQuality := 30
  tideAndCurrent := 25
  waves := 20
  weather := 15
  visibility := 10

/-- The key list of the SCORE_WEIGHTS object literal, in source order. -/
def SCORE_WEIGHTS_keys : List String :=
  ["waterQuality", "tideAndCurrent", "waves", "weather", "visibility"]

/-- The JavaScript property read `SCORE_WEIGHTS.damReleases` performed by
`calculateSwimScore` (swim-score.ts line 46): `damReleases` is not a key of
the shipped SCORE_WEIGHTS, so the read evaluates to `undefined`, embedded as
`none`. -/
def SCORE_WEIGHTS_damReleases : Option ℚ := none

/-- Source: one entry of SCORE_RANGES (src/config/thresholds.ts). -/
structure ScoreRange where
  min : ℚ
  max : ℚ
  label : String
  color : String
deriving DecidableEq, Repr

/-- Source: the SCORE_RANGES constant of src/config/thresholds.ts. -/
structure ScoreRanges where
  excellent : ScoreRange
  good : ScoreRange
  fair : ScoreRange
  poor : ScoreRange
  dangerous : ScoreRange
deriving DecidableEq, Repr

/-- Source: SCORE_RANGES values. -/
def SCORE_RANGES : ScoreRanges where
  excellent := { min := 80, max := 100, label := "Excellent", color := "#22c55e" }
  good := { min := 60, max := 79, label := "Good", color := "#3b82f6" }
  fair := { min := 40, max := 59, label := "Fair", color := "#f59e0b" }
  poor := { min := 20, max := 39, label := "Poor", color := "#ef4444" }
  dangerous := { min := 0, max := 19, label := "Dangerous", color := "#991b1b" }

/-! ## Data model, src/types/conditions.ts -/

/-- Tide reading type tag (TideData.type). -/
inductive TideType where
  | high
  | low
  | normal
deriving DecidableEq, Repr

/-- Tide phase (TidePrediction.currentPhase). -/
inductive TidePhase where
  | flood
  | ebb
  | slack
deriving DecidableEq, Repr

/-- Source: interface TideData. Dates are epoch milliseconds. -/
structure TideData where
  timestamp : ℚ
  heightFeet : ℚ
  type : TideType
  source : Option String := none
deriving DecidableEq, Repr

/-- Source: interface TidePrediction (extends TideData). -/
structure TidePrediction where
  timestamp : ℚ
  heightFeet : ℚ
  type : TideType
  source : Option String := none
  nextHigh : Option TideData := none
  nextLow : Option TideData := none
  currentPhase : TidePhase
  changeRateFeetPerHour : ℚ
deriving DecidableEq, Repr

/-- Source: interface CurrentData. -/
structure CurrentData where
  timestamp : ℚ
  speedKnots : ℚ
  direction : ℚ
  lat : ℚ
  lon : ℚ
  source : Option String := none
deriving DecidableEq, Repr

/-- Source: interface WeatherData. -/
structure WeatherData where
  timestamp : ℚ
  temperatureF : ℚ
  windSpeedMph : ℚ
  windDirection : ℚ
  windGustMph : Option ℚ := none
  visibilityMiles : ℚ
  conditions : String
  pressure : Option ℚ := none
  humidity : Option ℚ := none
  source : Option String := none
deriving DecidableEq, Repr

/-- Source: interface WaveData. -/
structure WaveData where
  timestamp : ℚ
  waveHeightFeet : ℚ
  swellPeriodSeconds : Option ℚ := none
  swellDirection : Option ℚ := none
  dominantPeriod : Option ℚ := none
  source : Option String := none
deriving DecidableEq, Repr

/-- Water quality input status (WaterQuality.status). -/
inductive WaterQualityStatus where
  | safe
  | advisory
  | warning
  | closed
deriving DecidableEq, Repr

/-- Source: interface WaterQuality. -/
structure WaterQuality where
  timestamp : ℚ
  coliformCount : Option ℚ := none
  enterococcusCount : Option ℚ := none
  status : WaterQualityStatus
  notes : Option String := none
  source : Option String := none
  stationId : Option String := none
deriving DecidableEq, Repr

/-- Source: interface SSOEvent. -/
structure SSOEvent where
  id : String
  reportedAt : ℚ
  location : String
  volumeGallons : Option ℚ := none
  resolved : Bool
  resolvedAt : Option ℚ := none
  distanceFromParkMiles : Option ℚ := none
  notes : Option String := none
  source : Option String := none
deriving DecidableEq, Repr

/-- Dam release level (DamReleaseData.current.releaseLevel). -/
inductive ReleaseLevel where
  | low
  | moderate
  | high
  | extreme
deriving DecidableEq, Repr

/-- Trend direction of the combined 48h series. -/
inductive TrendDirection where
  | increasing
  | stable
  | decreasing
deriving DecidableEq, Repr

/-- Source: DamReleaseData.current — the current snapshot. The fields
`totalFlowCFS` and `releaseLevel` live HERE, nested one level down, not at
the top level of DamReleaseData. -/
structure DamCurrentSnapshot where
  totalFlowCFS : ℚ
  releaseLevel : ReleaseLevel
deriving DecidableEq, Repr

/-- Source: DamReleaseData.historical48h. -/
structure DamHistorical48h where
  averageFlowCFS : ℚ
  peakFlowCFS : ℚ
  peakTimestamp : ℚ
  trendDirection : TrendDirection
  last24hAverage : ℚ
  last48hAverage : ℚ
  dataPointsCount : ℕ
deriving DecidableEq, Repr

/-- Source: the per-dam `current` record inside DamReleaseData.dams — again,
`flowCFS` is nested under `current`, not a top-level field of the entry. -/
structure DamEntryCurrent where
  flowCFS : ℚ
  timestamp : Option ℚ := none
  percentOfTotal : ℚ
deriving DecidableEq, Repr

/-- Source: the per-dam `historical48h` record inside DamReleaseData.dams. -/
structure DamEntryHistorical where
  averageFlowCFS : ℚ
  peakFlowCFS : ℚ
  dataPoints : ℕ
deriving DecidableEq, Repr

/-- Source: one element of DamReleaseData.dams. -/
structure DamEntry where
  name : String
  stationId : String
  current : DamEntryCurrent
  historical48h : DamEntryHistorical
deriving DecidableEq, Repr

/-- Source: interface DamReleaseData. -/
structure DamReleaseData where
  timestamp : ℚ
  current : DamCurrentSnapshot
  historical48h : DamHistorical48h
  dams : List DamEntry
  latestDataTimestamp : Option ℚ := none
  source : Option String := none
deriving DecidableEq, Repr

/-- Source: interface OpenMeteoWindData (src/lib/api/open-meteo.ts). -/
structure OpenMeteoWindData where
  timestamp : ℚ
  windSpeedMph : ℚ
  windDirection : ℚ
  windGustMph : Option ℚ := none
  source : String
deriving DecidableEq, Repr

/-! ## Factor shapes, src/types/conditions.ts interface SwimScoreFactors -/

/-- Output status of the water-quality factor. -/
inductive WQFactorStatus where
  | safe
  | advisory
  | warning
  | dangerous
deriving DecidableEq, Repr

/-- Source: SwimScoreFactors.waterQuality. -/
structure WaterQualityFactor where
  score : ℚ
  status : WQFactorStatus
  bacteriaLevel : String
  recentSSO : Bool
  daysSinceSSO : Option ℤ := none
  issues : List String
deriving DecidableEq, Repr

/-- Source: SwimScoreFactors.tideAndCurrent. -/
structure TideAndCurrentFactor where
  score : ℚ
  phase : TidePhase
  currentSpeed : ℚ
  tideHeight : ℚ
  favorable : Bool
  issues : List String
deriving DecidableEq, Repr

/-- Output status of the waves factor. -/
inductive WaveStatus where
  | calm
  | moderate
  | rough
  | dangerous
deriving DecidableEq, Repr

/-- Source: SwimScoreFactors.waves. -/
structure WavesFactor where
  score : ℚ
  heightFeet : ℚ
  status : WaveStatus
  issues : List String
deriving DecidableEq, Repr

/-- Output wind classification of the weather factor. -/
inductive WindCondition where
  | calm
  | light
  | moderate
  | strong
deriving DecidableEq, Repr

/-- Source: SwimScoreFactors.weather. -/
structure WeatherFactor where
  score : ℚ
  temperature : ℚ
  windSpeed : ℚ
  windCondition : WindCondition
  issues : List String
deriving DecidableEq, Repr

/-- Source: SwimScoreFactors.damReleases. The declared interface promises a
number `totalFlowCFS` and an enum `releaseLevel`, but in the non-null branch
`scoreDamReleases` can only ever copy the `undefined` it destructured from
the top level of DamReleaseData into these fields, so the embedded factor
carries the JavaScript values actually produced: `Option`s. -/
structure DamReleasesFactor where
  score : ℚ
  totalFlowCFS : Option ℚ
  releaseLevel : Option ReleaseLevel
  topContributor : String
  issues : List String
deriving DecidableEq, Repr

/-- Source: interface SwimScoreFactors. -/
structure SwimScoreFactors where
  waterQuality : WaterQualityFactor
  tideAndCurrent : TideAndCurrentFactor
  waves : WavesFactor
  weather : WeatherFactor
  damReleases : DamReleasesFactor
deriving DecidableEq, Repr

/-- Overall rating bucket (SwimScore.rating). -/
inductive Rating where
  | excellent
  | good
  | fair
  | poor
  | dangerous
deriving DecidableEq, Repr

/-- Source: interface SwimScore. `overallScore` is the possibly-NaN
JavaScript number the code computes. -/
structure SwimScore where
  timestamp : ℚ
  overallScore : Option ℚ
  rating : Rating
  factors : SwimScoreFactors
  recommendations : List String
  warnings : List String
deriving DecidableEq, Repr

/-! ## Factor scorers, src/lib/algorithms/swim-score.ts -/

/-- Template-string rendering of a tide phase inside issue strings. -/
def phaseName : TidePhase → String
  | .flood => "flood"
  | .ebb => "ebb"
  | .slack => "slack"

/-- Source: swim-score.ts lines 78-146, scoreWaterQuality. `now` is the
current epoch time in milliseconds (`Date.now()`). -/
def scoreWaterQuality (waterQuality : Option WaterQuality) (recentSSOs : List SSOEvent)
    (now : ℚ) : WaterQualityFactor :=
  -- bacteria banding (lines 88-115); the initial state is score 100,
  -- bacteriaLevel "unknown", status safe
  let base : ℚ × WQFactorStatus × String × List String :=
    match waterQuality with
    | none =>
        (50, .advisory, "unknown", ["No water quality data available"])
    | some wq =>
        match wq.enterococcusCount with
        | some count =>
            let thresholds := SAFETY_THRESHOLDS.waterQuality.enterococcus
            if count > thresholds.dangerous then
              (0, .dangerous, "dangerous",
               ["Dangerous bacteria levels (" ++ jsNumberString count ++ " MPN/100ml)"])
            else if count > thresholds.advisory then
              (30, .warning, "high",
               ["High bacteria levels (" ++ jsNumberString count ++ " MPN/100ml)"])
            else if count > thresholds.safe then
              (70, .advisory, "moderate",
               ["Elevated bacteria levels (" ++ jsNumberString count ++ " MPN/100ml)"])
            else
              (100, .safe, "safe", [])
        | none => (100, .safe, "unknown", [])
  let (score₀, status₀, bacteriaLevel, issues₀) := base
  -- recent SSO checks (lines 117-134)
  let activeSSOs := recentSSOs.filter (fun sso => !sso.resolved)
  let daysSince (sso : SSOEvent) : ℚ := (now - sso.reportedAt) / (1000 * 60 * 60 * 24)
  let recentSSO := recentSSOs.find? (fun sso =>
    decide (daysSince sso < SAFETY_THRESHOLDS.sso.cautionDays))
  let (score, status, issues) :=
    if activeSSOs.length > 0 then
      (min score₀ 20, WQFactorStatus.dangerous, issues₀ ++ ["Active sewer overflow nearby"])
    else
      match recentSSO with
      | some sso =>
          (min score₀ 60,
           if status₀ = .safe then WQFactorStatus.advisory else status₀,
           issues₀ ++ ["Recent sewer overflow " ++ toString (⌊daysSince sso⌋ : ℤ) ++ " days ago"])
      | none => (score₀, status₀, issues₀)
  { score := score
    status := status
    bacteriaLevel := bacteriaLevel
    recentSSO := recentSSO.isSome
    daysSinceSSO := recentSSO.map (fun sso => (⌊daysSince sso⌋ : ℤ))
    issues := issues }

/-- Source: swim-score.ts lines 151-209, scoreTideAndCurrent. The read of the
absent key `SAFETY_THRESHOLDS.tide.phasePreference` when no custom
preferences are supplied yields `undefined`; indexing `preferences[phase]`
into it then throws a TypeError. -/
def scoreTideAndCurrent (tide : Option TidePrediction) (current : Option CurrentData)
    (customTidePreferences : Option TidePhasePreferences) :
    Except JsError TideAndCurrentFactor :=
  let phase : TidePhase := match tide with | some t => t.currentPhase | none => .slack
  let currentSpeed : ℚ := match current with | some c => c.speedKnots | none => 0
  let tideHeight : ℚ := match tide with | some t => t.heightFeet | none => 0
  let changeRate : ℚ := match tide with | some t => t.changeRateFeetPerHour | none => 0
  let favorable : Bool :=
    decide (phase = .slack) || decide (currentSpeed < SAFETY_THRESHOLDS.current.slow)
  match tide with
  | none =>
      .ok { score := 50, phase := phase, currentSpeed := currentSpeed,
            tideHeight := tideHeight, favorable := favorable,
            issues := ["No tide data available"] }
  | some _ =>
      -- const preferences = customTidePreferences || SAFETY_THRESHOLDS.tide.phasePreference;
      match (match customTidePreferences with
             | some p => some p
             | none => SAFETY_THRESHOLDS_tide_phasePreference) with
      | none => .error .typeError
      | some preferences =>
          let basePhaseScore : ℚ :=
            match phase with
            | .slack => preferences.slack
            | .flood => preferences.flood
            | .ebb => preferences.ebb
          let (score₀, issues₀) : ℚ × List String :=
            if |changeRate| < SAFETY_THRESHOLDS.tide.lowCurrent then
              (basePhaseScore, [])
            else if |changeRate| < SAFETY_THRESHOLDS.tide.moderateCurrent then
              (min (basePhaseScore * 0.7) 70,
               ["Moderate tide movement (" ++ phaseName phase ++ ")"])
            else
              (min (basePhaseScore * 0.4) 40,
               ["Strong tide movement (" ++ phaseName phase ++ ")"])
          let (score, issues) : ℚ × List String :=
            if currentSpeed > SAFETY_THRESHOLDS.current.veryStrong then
              (min score₀ 20,
               issues₀ ++ ["Very strong current (" ++ jsNumberString currentSpeed ++ " knots)"])
            else if currentSpeed > SAFETY_THRESHOLDS.current.strong then
              (min score₀ 40,
               issues₀ ++ ["Strong current (" ++ jsNumberString currentSpeed ++ " knots)"])
            else if currentSpeed > SAFETY_THRESHOLDS.current.moderate then
              (min score₀ 65,
               issues₀ ++ ["Moderate current (" ++ jsNumberString currentSpeed ++ " knots)"])
            else
              (score₀, issues₀)
          .ok { score := score, phase := phase, currentSpeed := currentSpeed,
                tideHeight := tideHeight, favorable := favorable, issues := issues }

/-- Source: swim-score.ts lines 214-251, scoreWaves. The guard
`height === 0 && !waves?.waveHeightFeet` fires when the reading is absent or
its height is exactly 0 (0 is falsy in JavaScript); it never looks at the
source tag. -/
def scoreWaves (waves : Option WaveData) : WavesFactor :=
  let height : ℚ := match waves with | some w => w.waveHeightFeet | none => 0
  -- JavaScript truthiness of `waves?.waveHeightFeet`: false when the reading
  -- is absent (optional chaining gives undefined) and when the height is 0
  let heightTruthy : Bool := match waves with | some w => decide (w.waveHeightFeet ≠ 0) | none => false
  if height = 0 ∧ heightTruthy = false then
    { score := 50, heightFeet := height, status := .moderate,
      issues := ["No wave data available"] }
  else if height < SAFETY_THRESHOLDS.waves.calm then
    { score := 100, heightFeet := height, status := .calm, issues := [] }
  else if height < SAFETY_THRESHOLDS.waves.safe then
    { score := 85, heightFeet := height, status := .calm, issues := [] }
  else if height < SAFETY_THRESHOLDS.waves.moderate then
    { score := 60, heightFeet := height, status := .moderate,
      issues := ["Moderate waves (" ++ jsNumberString height ++ " ft)"] }
  else if height < SAFETY_THRESHOLDS.waves.rough then
    { score := 30, heightFeet := height, status := .rough,
      issues := ["Rough waves (" ++ jsNumberString height ++ " ft)"] }
  else
    { score := 10, heightFeet := height, status := .dangerous,
      issues := ["Dangerous waves (" ++ jsNumberString height ++ " ft)"] }

/-- Source: swim-score.ts lines 256-303, scoreWeather. -/
def scoreWeather (weather : Option WeatherData) : WeatherFactor :=
  let windSpeed : ℚ := match weather with | some w => w.windSpeedMph | none => 0
  let temperature : ℚ := match weather with | some w => w.temperatureF | none => 0
  let windTruthy : Bool := match weather with | some w => decide (w.windSpeedMph ≠ 0) | none => false
  let (score₀, windCondition, issues₀) : ℚ × WindCondition × List String :=
    if windSpeed = 0 ∧ windTruthy = false then
      (50, .moderate, ["No wind data available"])
    else if windSpeed < SAFETY_THRESHOLDS.wind.calm then
      (100, .calm, [])
    else if windSpeed < SAFETY_THRESHOLDS.wind.light then
      (95, .light, [])
    else if windSpeed < SAFETY_THRESHOLDS.wind.moderate then
      (80, .moderate, [])
    else if windSpeed < SAFETY_THRESHOLDS.wind.strong then
      (60, .moderate, ["Moderate winds (" ++ jsNumberString windSpeed ++ " mph)"])
    else if windSpeed < SAFETY_THRESHOLDS.wind.veryStrong then
      (35, .strong, ["Strong winds (" ++ jsNumberString windSpeed ++ " mph)"])
    else
      (15, .strong, ["Very strong winds (" ++ jsNumberString windSpeed ++ " mph)"])
  -- precipitation check (lines 291-294)
  let rainy : Bool :=
    match weather with
    | some w => strIncludes w.conditions "rain" || strIncludes w.conditions "storm"
    | none => false
  let (score, issues) : ℚ × List String :=
    if rainy then (min score₀ 40, issues₀ ++ ["Precipitation present"])
    else (score₀, issues₀)
  { score := score, temperature := temperature, windSpeed := windSpeed,
    windCondition := windCondition, issues := issues }

/-- Source: swim-score.ts lines 309-364, scoreDamReleases. For a non-null
aggregate the function destructures `totalFlowCFS`, `dams` and `releaseLevel`
from the TOP level of the value — but DamReleaseData nests `totalFlowCFS` and
`releaseLevel` under `current`, so both come out `undefined` — and then reads
`SAFETY_THRESHOLDS.damReleases`, which is not a key of the shipped thresholds
table; evaluating `thresholds.extreme` on that `undefined` throws a
TypeError before any score is produced. -/
def scoreDamReleases (damReleases : Option DamReleaseData) :
    Except JsError DamReleasesFactor :=
  match damReleases with
  | none =>
      .ok { score := 75, totalFlowCFS := some 0, releaseLevel := some .low,
            topContributor := "Unknown",
            issues := ["Dam release data unavailable"] }
  | some d =>
      -- const { totalFlowCFS, dams, releaseLevel } = damReleases;
      let totalFlowCFS : Option ℚ := none
      let dams := d.dams
      let releaseLevel : Option ReleaseLevel := none
      -- const thresholds = SAFETY_THRESHOLDS.damReleases;
      match SAFETY_THRESHOLDS_damReleases with
      | none =>
          -- thresholds is undefined: `totalFlowCFS > thresholds.extreme` throws
          .error .typeError
      | some thresholds =>
          -- unreachable with the shipped thresholds table; translated for
          -- completeness: every comparison against the undefined
          -- totalFlowCFS is false, so the else branch gives score 100
          let (score, issues) : ℚ × List String :=
            if jsGt totalFlowCFS thresholds.extreme then
              (10, ["Extreme dam releases", "Very strong currents expected - swimming not recommended"])
            else if jsGt totalFlowCFS thresholds.high then
              (30, ["High dam releases", "Strong currents - experienced swimmers only"])
            else if jsGt totalFlowCFS thresholds.moderate then
              (65, ["High dam releases", "Strong currents - experienced swimmers only"])
            else if jsGt totalFlowCFS thresholds.low then
              (75, ["Moderate dam releases", "Increased current strength"])
            else
              (100, [])
          -- dams.reduce((max, dam) => dam.flowCFS > max.flowCFS ? dam : max,
          --             dams[0] || { name: "Unknown", flowCFS: 0 });
          -- `dam.flowCFS` is a top-level read on an entry that nests flowCFS
          -- under `current`, so every comparison is undefined > undefined,
          -- false, and the accumulator never changes
          let topContributor : String :=
            match dams.head? with
            | some first => first.name
            | none => "Unknown"
          .ok { score := score, totalFlowCFS := totalFlowCFS,
                releaseLevel := releaseLevel, topContributor := topContributor,
                issues := issues }

/-! ## Overall score, rating and advice, swim-score.ts -/

/-- Source: swim-score.ts lines 41-48 — the weighted overall score. The last
product multiplies the dam factor score by the absent key
`SCORE_WEIGHTS.damReleases`, i.e. by `undefined`, so the whole expression is
NaN. -/
def overallScoreJs (waterQuality tideAndCurrent waves weather damReleases : ℚ) : Option ℚ :=
  jsRound (jsDiv
    (jsAdd (jsAdd (jsAdd (jsAdd
      (jsMul (some waterQuality) (some SCORE_WEIGHTS.waterQuality))
      (jsMul (some tideAndCurrent) (some SCORE_WEIGHTS.tideAndCurrent)))
      (jsMul (some waves) (some SCORE_WEIGHTS.waves)))
      (jsMul (some weather) (some SCORE_WEIGHTS.weather)))
      (jsMul (some damReleases) SCORE_WEIGHTS_damReleases))
    (some 100))

/-- Source: swim-score.ts lines 369-375, getScoreRating. Every comparison
with a NaN overall score is false, so a NaN score rates `dangerous`. -/
def getScoreRating (score : Option ℚ) : Rating :=
  if jsGe score SCORE_RANGES.excellent.min then .excellent
  else if jsGe score SCORE_RANGES.good.min then .good
  else if jsGe score SCORE_RANGES.fair.min then .fair
  else if jsGe score SCORE_RANGES.poor.min then .poor
  else .dangerous

/-- Source: swim-score.ts lines 380-442, generateAdvice. -/
def generateAdvice (factors : SwimScoreFactors) (overallScore : Option ℚ) :
    List String × List String :=
  let (recs₁, warns₁) : List String × List String :=
    if factors.waterQuality.status = .dangerous then
      ([], ["Do not swim - dangerous water quality"])
    else if factors.waterQuality.status = .warning then
      ([], ["Water quality warning in effect"])
    else if factors.waterQuality.recentSSO then
      ([], ["Recent sewer overflow - use caution"])
    else ([], [])
  let (recs₂, warns₂) : List String × List String :=
    if factors.tideAndCurrent.phase = .slack then
      (["Excellent time - slack tide"], [])
    else if factors.tideAndCurrent.currentSpeed > 1.0 then
      ([], ["Strong currents - experienced swimmers only"])
    else ([], [])
  let (recs₃, warns₃) : List String × List String :=
    if factors.waves.status = .dangerous then
      ([], ["Dangerous wave conditions"])
    else if factors.waves.status = .rough then
      ([], ["Rough seas - not recommended"])
    else if factors.waves.heightFeet < 2 then
      (["Calm water conditions"], [])
    else ([], [])
  let (recs₄, warns₄) : List String × List String :=
    if factors.weather.windCondition = .strong then
      ([], ["Strong winds present"])
    else ([], [])
  let (recs₅, warns₅) : List String × List String :=
    if factors.damReleases.releaseLevel = some .extreme then
      ([], ["Extreme dam releases - very strong currents expected"])
    else if factors.damReleases.releaseLevel = some .high then
      ([], ["High dam releases - strong bay currents"])
    else if factors.damReleases.releaseLevel = some .moderate then
      (["Moderate dam releases - be aware of currents"], [])
    else if factors.damReleases.releaseLevel = some .low then
      (["Normal dam operations"], [])
    else ([], [])
  let (recs₆, warns₆) : List String × List String :=
    if jsGe overallScore 80 then (["Excellent conditions for swimming"], [])
    else if jsGe overallScore 60 then (["Good conditions for swimming"], [])
    else if jsGe overallScore 40 then (["Fair conditions - experienced swimmers recommended"], [])
    else if jsGe overallScore 20 then ([], ["Poor conditions - not recommended"])
    else ([], ["Dangerous conditions - do not swim"])
  (recs₁ ++ recs₂ ++ recs₃ ++ recs₄ ++ recs₅ ++ recs₆,
   warns₁ ++ warns₂ ++ warns₃ ++ warns₄ ++ warns₅ ++ warns₆)

/-- Source: swim-score.ts lines 23-73, calculateSwimScore. The factor
scorers run in source order; the first thrown TypeError aborts the whole
call, as in JavaScript. `now` stands for `Date.now()` and the `new Date()`
timestamp. -/
def calculateSwimScore (tide : Option TidePrediction) (current : Option CurrentData)
    (weather : Option WeatherData) (waves : Option WaveData)
    (waterQuality : Option WaterQuality) (recentSSOs : List SSOEvent)
    (damReleases : Option DamReleaseData)
    (customTidePreferences : Option TidePhasePreferences) (now : ℚ) :
    Except JsError SwimScore := do
  let waterQualityFactor := scoreWaterQuality waterQuality recentSSOs now
  let tideCurrentFactor ← scoreTideAndCurrent tide current customTidePreferences
  let waveFactor := scoreWaves waves
  let weatherFactor := scoreWeather weather
  let damReleasesFactor ← scoreDamReleases damReleases
  let overallScore := overallScoreJs waterQualityFactor.score tideCurrentFactor.score
    waveFactor.score weatherFactor.score damReleasesFactor.score
  let rating := getScoreRating overallScore
  let factors : SwimScoreFactors :=
    { waterQuality := waterQualityFactor
      tideAndCurrent := tideCurrentFactor
      waves := waveFactor
      weather := weatherFactor
      damReleases := damReleasesFactor }
  let (recommendations, warnings) := generateAdvice factors overallScore
  .ok { timestamp := now, overallScore := overallScore, rating := rating,
        factors := factors, recommendations := recommendations, warnings := warnings }

/-! ## Release-level classifier, src/lib/api/cdec.ts -/

/-- Source: cdec.ts determineReleaseLevel — classification of the system
total flow (CFS) with strict greater-than tests. The shipped classifier has
exactly three thresholds: 80,000 / 50,000 / 30,000; there is no 100,000
tier. -/
def determineReleaseLevel (totalFlowCFS : ℚ) : ReleaseLevel :=
  if totalFlowCFS > 80000 then .extreme
  else if totalFlowCFS > 50000 then .high
  else if totalFlowCFS > 30000 then .moderate
  else .low

/-! ## Conditions orchestrator — critical tide check and diagnostics
(preference-aware GET route, lines 34-68) -/

/-- Outcome of one entry of `Promise.allSettled`: the lookup promise either
fulfilled with a value or rejected with an error message. -/
inductive Settled (α : Type) where
  | fulfilled (value : α)
  | rejected (message : String)
deriving DecidableEq, Repr

/-- Extraction performed at lines 45-51 of the route:
`x.status === "fulfilled" ? x.value : null`. A lookup that resolved null and
a rejected lookup both come out absent. -/
def settledValue : Settled (Option α) → Option α
  | .fulfilled v => v
  | .rejected _ => none

/-- The settle state of the seven concurrent source lookups issued by the
preference-aware conditions route (lines 34-42). -/
structure ConditionsSettle where
  tide : Settled (Option TidePrediction)
  current : Settled (Option CurrentData)
  weather : Settled (Option WeatherData)
  waves : Settled (Option WaveData)
  waterQuality : Settled (Option WaterQuality)
  recentSSOs : Settled (List SSOEvent)
  windData : Settled (Option OpenMeteoWindData)
deriving DecidableEq, Repr

/-- The sources the route attempts, in the order of the
`Promise.allSettled` array (lines 34-42): seven lookups. -/
def attemptedSources : List String :=
  ["tide", "current", "weather", "waves", "waterQuality", "recentSSOs", "windData"]

/-- Diagnostic string for one non-tide source in the critical-failure body
(route lines 61-63): the rejection message if the lookup rejected, otherwise
"missing" when it resolved empty and "ok" when it resolved with data. -/
def sourceDiagnostic : Settled (Option α) → String
  | .rejected m => m
  | .fulfilled none => "missing"
  | .fulfilled (some _) => "ok"

/-- The `details` object of the critical-failure response (route lines
59-64). It has exactly four entries — tide, weather, waves, waterQuality —
even though seven sources were attempted. The tide entry is the rejection
message or "missing" (this branch only runs when tide data is absent). -/
def criticalDetails (s : ConditionsSettle) : List (String × String) :=
  [("tide", match s.tide with | .rejected m => m | .fulfilled _ => "missing"),
   ("weather", sourceDiagnostic s.weather),
   ("waves", sourceDiagnostic s.waves),
   ("waterQuality", sourceDiagnostic s.waterQuality)]

/-- Result of the critical-data check of the route (lines 53-68): a 503
critical-failure response carrying the diagnostics, or the tide value with
which scoring proceeds. -/
inductive CriticalCheck where
  | criticalFailure (error : String) (details : List (String × String))
  | proceed (tide : TidePrediction)
deriving DecidableEq, Repr

/-- Source: route lines 53-68 — `if (!tideData) return 503-with-details`.
Only the tide value is consulted; the absence of any other source does not
trigger the failure branch. -/
def conditionsCriticalCheck (s : ConditionsSettle) : CriticalCheck :=
  match settledValue s.tide with
  | none => .criticalFailure "Unable to fetch critical tide data" (criticalDetails s)
  | some t => .proceed t

/-! ## Per-source fallbacks and the wave provider chain,
src/lib/static/generateStaticData.ts -/

/-- Source: generateStaticData.ts lines 35-51, fetchWaveDataWithFallback.
The primary provider (OpenWaterLog) is attempted inside a try block; if it
throws or resolves null, the secondary provider (the NOAA buoy) is called
once, unguarded, and its outcome — value, null or rejection — becomes the
outcome of the whole chain. A provider outcome is
`Except String (Option WaveData)`: rejection message, or reading-or-null. -/
def fetchWaveDataWithFallback (primary secondary : Except String (Option WaveData)) :
    Except String (Option WaveData) :=
  match primary with
  | .ok (some owlData) => .ok (some owlData)
  | .ok none => secondary
  | .error _ => secondary

/-- Source: generateStaticData.ts lines 111-115 (with the settle extraction
of line 69) — the wave reading handed to the scorer: the chain value if it
produced one, otherwise the documented fallback of height 0 tagged
"unavailable". -/
def wavesWithFallback (waves : Except String (Option WaveData)) (now : ℚ) : WaveData :=
  match waves with
  | .ok (some w) => w
  | _ => { timestamp := now, waveHeightFeet := 0, source := some "unavailable" }

/-- Source: generateStaticData.ts lines 117-121 — the water-quality reading
handed to the scorer when the source is absent: status "safe", tagged
"unavailable", with no bacteria counts. -/
def waterQualityWithFallback (waterQualityData : Option WaterQuality) (now : ℚ) :
    WaterQuality :=
  match waterQualityData with
  | some wq => wq
  | none => { timestamp := now, status := .safe, source := some "unavailable" }

/-! ## Specification-side definitions -/

/-- Written from the spec: the documented default tide-phase preference
table, slack 100 / flood 85 / ebb 85 (spec section 3 and the repository
README). The shipped SAFETY_THRESHOLDS.tide has no such entry. -/
def defaultPhasePreference : TidePhasePreferences where
  slack := 100
  flood := 85
  ebb := 85

/-- Written from the spec (section 4.3): the claimed overall score — the
rounded weighted average of the five factor scores with dam-release weight
10. -/
def claimedOverallScore (waterQuality tideAndCurrent waves weather damReleases : ℚ) : ℤ :=
  round ((waterQuality * 30 + tideAndCurrent * 25 + waves * 20 + weather * 15 +
    damReleases * 10) / 100)

/-- Modelled from the spec: the time-lag scoring flow of the dam-release
factor, max(0.6 x last24hAverage + 0.4 x last48hAverage, 0.8 x peakFlowCFS).
This computation appears in the repository README but nowhere in the shipped
scorer. -/
def specScoringFlow (d : DamReleaseData) : ℚ :=
  max (0.6 * d.historical48h.last24hAverage + 0.4 * d.historical48h.last48hAverage)
      (0.8 * d.historical48h.peakFlowCFS)

/-- Modelled from the spec: the release-level score bands applied to the
scoring flow — 100 low, 75 moderate, 65 elevated, 30 high, 10 extreme, with
the section 4.2 thresholds 30,000 / 50,000 / 80,000 / 100,000. -/
def specDamBandScore (scoringFlow : ℚ) : ℚ :=
  if scoringFlow > 100000 then 10
  else if scoringFlow > 80000 then 30
  else if scoringFlow > 50000 then 65
  else if scoringFlow > 30000 then 75
  else 100

/-- Written from the amended C9 claim: score and status of the wave factor —
50 and moderate exactly when the reading is absent or its height is zero
(regardless of source), the height bands otherwise. -/
def wavesAmendedScoreStatus (waves : Option WaveData) : ℚ × WaveStatus :=
  match waves with
  | none => (50, .moderate)
  | some w =>
      if w.waveHeightFeet = 0 then (50, .moderate)
      else if w.waveHeightFeet < 2 then (100, .calm)
      else if w.waveHeightFeet < 3 then (85, .calm)
      else if w.waveHeightFeet < 5 then (60, .moderate)
      else if w.waveHeightFeet < 8 then (30, .rough)
      else (10, .dangerous)

/-! ## Concrete sample inputs used by the claim theorems -/

/-- Slack tide, height 2 ft, change rate 0.2 ft/hr (the C6 example). -/
def sampleTide : TidePrediction where
  timestamp := 0
  heightFeet := 2
  type := .normal
  currentPhase := .slack
  changeRateFeetPerHour := 0.2

/-- Current of 0.1 knots (the C6 example). -/
def sampleCurrent : CurrentData where
  timestamp := 0
  speedKnots := 0.1
  direction := 0
  lat := 37.8065
  lon := -122.4216

/-- Clear weather, 3 mph wind. -/
def sampleWeather : WeatherData where
  timestamp := 0
  temperatureF := 60
  windSpeedMph := 3
  windDirection := 0
  visibilityMiles := 10
  conditions := "clear"

/-- Calm 1 ft waves. -/
def sampleWaves : WaveData where
  timestamp := 0
  waveHeightFeet := 1

/-- Safe water quality, enterococcus 50 MPN/100ml. -/
def sampleWaterQuality : WaterQuality where
  timestamp := 0
  enterococcusCount := some 50
  status := .safe

/-- A genuine buoy reading of exactly 0 ft (the C9 counterexample): a wave
height of zero carrying a real source tag. -/
def sampleZeroWave : WaveData where
  timestamp := 0
  waveHeightFeet := 0
  source := some "NOAA-buoy"

/-- The dam-release aggregate of the C3 example: last24hAverage 40,000,
last48hAverage 20,000, peak 60,000 CFS. -/
def sampleDamAggregate : DamReleaseData where
  timestamp := 0
  current := { totalFlowCFS := 35000, releaseLevel := .moderate }
  historical48h :=
    { averageFlowCFS := 20000
      peakFlowCFS := 60000
      peakTimestamp := 0
      trendDirection := .stable
      last24hAverage := 40000
      last48hAverage := 20000
      dataPointsCount := 48 }
  dams := [{ name := "Shasta Dam", stationId := "SHA",
             current := { flowCFS := 35000, percentOfTotal := 100 },
             historical48h := { averageFlowCFS := 20000, peakFlowCFS := 60000, dataPoints := 48 } }]

/-- A settle state in which the tide lookup rejected and every other lookup
fulfilled with data (the C7 counterexample). -/
def sampleSettleTideDown : ConditionsSettle where
  tide := .rejected "Request timed out"
  current := .fulfilled (some sampleCurrent)
  weather := .fulfilled (some sampleWeather)
  waves := .fulfilled (some sampleWaves)
  waterQuality := .fulfilled (some sampleWaterQuality)
  recentSSOs := .fulfilled []
  windData := .fulfilled (some { timestamp := 0, windSpeedMph := 3, windDirection := 0, source := "open-meteo" })

/-! ## Evaluation lemmas shared by the claim theorems -/

/-- Evaluation of the tide scorer at the sample slack tide (change rate 0.2
ft/hr, current 0.1 kt) with the documented default preference table passed
explicitly. -/
theorem scoreTideAndCurrent_sample_eval :
    scoreTideAndCurrent (some sampleTide) (some sampleCurrent) (some defaultPhasePreference)
      = .ok { score := 100, phase := .slack, currentSpeed := 0.1, tideHeight := 2,
              favorable := true, issues := [] } := by
  unfold scoreTideAndCurrent
  norm_num [sampleTide, sampleCurrent, defaultPhasePreference, SAFETY_THRESHOLDS, abs_of_pos]

/-- Evaluation of the wave scorer at the calm 1 ft sample reading. -/
theorem scoreWaves_sample_eval :
    scoreWaves (some sampleWaves)
      = { score := 100, heightFeet := 1, status := .calm, issues := [] } := by decide

/-- Evaluation of the weather scorer at the clear 3 mph sample reading. -/
theorem scoreWeather_sample_eval :
    scoreWeather (some sampleWeather)
      = { score := 100, temperature := 60, windSpeed := 3, windCondition := .calm,
          issues := [] } := by decide

/-- Evaluation of the water-quality scorer at the safe sample reading with no
overflow events. -/
theorem scoreWaterQuality_sample_eval :
    scoreWaterQuality (some sampleWaterQuality) [] 0
      = { score := 100, status := .safe, bacteriaLevel := "safe", recentSSO := false,
          daysSinceSSO := none, issues := [] } := by decide

/-! ## Claim theorems -/

/-- C1: the shipped SCORE_WEIGHTS table has no `damReleases` key (its fifth
weight is named `visibility`), so the weighted overall score of
swim-score.ts multiplies the dam factor score by `undefined` and evaluates
to NaN for EVERY combination of factor scores — it never equals the claimed
rounded weighted average (which, at factor scores 100/100/100/100/75, would
be 98). The five constants the table does define still sum to 100. -/
theorem c1_weighted_overall_is_NaN :
    "damReleases" ∉ SCORE_WEIGHTS_keys ∧
    SCORE_WEIGHTS_damReleases = none ∧
    SCORE_WEIGHTS.waterQuality + SCORE_WEIGHTS.tideAndCurrent + SCORE_WEIGHTS.waves +
      SCORE_WEIGHTS.weather + SCORE_WEIGHTS.visibility = 100 ∧
    (∀ waterQuality tideAndCurrent waves weather damReleases : ℚ,
      overallScoreJs waterQuality tideAndCurrent waves weather damReleases = none) ∧
    claimedOverallScore 100 100 100 100 75 = 98 := by
  refine ⟨by decide, rfl, by norm_num [SCORE_WEIGHTS], fun _ _ _ _ _ => rfl, ?_⟩
  norm_num [claimedOverallScore, round_eq]

/-- C2: on a fully valid reading set (safe water, slack tide, calm waves,
clear weather, explicit preference table, null dam aggregate) every factor
score is in range — 100/100/100/100/75 — yet the overall score is NaN, not
a number in [0,100], and the NaN rates `dangerous`. -/
theorem c2_overall_score_out_of_range :
    (calculateSwimScore (some sampleTide) (some sampleCurrent) (some sampleWeather)
        (some sampleWaves) (some sampleWaterQuality) [] none (some defaultPhasePreference)
        0).map
      (fun s => (s.overallScore, s.rating, s.factors.waterQuality.score,
        s.factors.tideAndCurrent.score, s.factors.waves.score, s.factors.weather.score,
        s.factors.damReleases.score))
      = .ok (none, .dangerous, 100, 100, 100, 100, 75) := by
  unfold calculateSwimScore
  rw [scoreTideAndCurrent_sample_eval, scoreWaterQuality_sample_eval]
  simp only [scoreWaves_sample_eval, scoreWeather_sample_eval]
  rfl

/-- C3: at the claimed example aggregate (last24hAverage 40,000,
last48hAverage 20,000, peak 60,000) the shipped scorer does not compute any
scoring flow at all — it throws a TypeError — whereas the documented
time-lag computation would give scoringFlow 48,000 and score 75. -/
theorem c3_dam_scorer_throws_instead_of_scoringFlow :
    scoreDamReleases (some sampleDamAggregate) = .error .typeError ∧
    specScoringFlow sampleDamAggregate = 48000 ∧
    specDamBandScore (specScoringFlow sampleDamAggregate) = 75 := by
  have h : specScoringFlow sampleDamAggregate = 48000 := by
    norm_num [specScoringFlow, sampleDamAggregate]
  refine ⟨rfl, h, ?_⟩
  rw [h]
  decide

/-- C4 counterexample: at a system total flow of 90,000 CFS the shipped
classifier answers `extreme`, while the claimed thresholds (extreme only
above 100,000) would answer `high`. -/
theorem c4_releaseLevel_90000_counterexample :
    determineReleaseLevel 90000 = .extreme ∧ ReleaseLevel.extreme ≠ ReleaseLevel.high := by
  refine ⟨by decide, by decide⟩

/-- C4 amended: the classifier uses strict greater-than thresholds 80,000 /
50,000 / 30,000 (extreme / high / moderate, else low) — there is no 100,000
tier — and the scorer does not share these thresholds, because the
`SAFETY_THRESHOLDS.damReleases` table it dereferences is absent from the
shipped configuration. -/
theorem c4_releaseLevel_thresholds_amended :
    (∀ f : ℚ,
      (determineReleaseLevel f = .extreme ↔ 80000 < f) ∧
      (determineReleaseLevel f = .high ↔ 50000 < f ∧ f ≤ 80000) ∧
      (determineReleaseLevel f = .moderate ↔ 30000 < f ∧ f ≤ 50000) ∧
      (determineReleaseLevel f = .low ↔ f ≤ 30000)) ∧
    SAFETY_THRESHOLDS_damReleases = none := by
  refine ⟨fun f => ?_, rfl⟩
  unfold determineReleaseLevel
  split_ifs with h1 h2 h3 <;>
    refine ⟨?_, ?_, ?_, ?_⟩ <;> constructor <;> intro h <;>
    first
      | rfl
      | linarith
      | (exact absurd rfl (by simp_all))
      | (exact ⟨by linarith, by linarith⟩)
      | simp_all

/-- C5: every non-null invocation of scoreDamReleases raises a TypeError —
the destructured `totalFlowCFS`/`releaseLevel` are `undefined` because the
data nests them under `current`, and `SAFETY_THRESHOLDS.damReleases` is
absent, so `thresholds.extreme` throws — while the null branch alone returns
normally, with score 75, release level low and top contributor Unknown. -/
theorem c5_scoreDamReleases_throws_on_non_null :
    (∀ d : DamReleaseData, scoreDamReleases (some d) = .error .typeError) ∧
    scoreDamReleases none
      = .ok { score := 75, totalFlowCFS := some 0, releaseLevel := some .low,
              topContributor := "Unknown",
              issues := ["Dam release data unavailable"] } :=
  ⟨fun _ => rfl, rfl⟩

/-- C6: with no caller preference, scoring a slack tide (change rate 0.2
ft/hr, current 0.1 kt) does not yield 100 — it throws a TypeError, because
the default table `SAFETY_THRESHOLDS.tide.phasePreference` is absent from
the shipped thresholds; passing the documented default table explicitly
yields exactly the claimed score 100 with favorable = true. -/
theorem c6_default_preference_throws :
    scoreTideAndCurrent (some sampleTide) (some sampleCurrent) none = .error .typeError ∧
    SAFETY_THRESHOLDS_tide_phasePreference = none ∧
    scoreTideAndCurrent (some sampleTide) (some sampleCurrent) (some defaultPhasePreference)
      = .ok { score := 100, phase := .slack, currentSpeed := 0.1, tideHeight := 2,
              favorable := true, issues := [] } :=
  ⟨rfl, rfl, scoreTideAndCurrent_sample_eval⟩

/-- C7 counterexample: with the tide lookup rejected and all six other
lookups successful, the route returns the critical failure, but its
diagnostic object has exactly four entries (tide, weather, waves,
waterQuality) for seven attempted sources — the wind lookup, among others,
has no entry. -/
theorem c7_diagnostics_not_per_source_counterexample :
    conditionsCriticalCheck sampleSettleTideDown
      = .criticalFailure "Unable to fetch critical tide data"
          [("tide", "Request timed out"), ("weather", "ok"), ("waves", "ok"),
           ("waterQuality", "ok")] ∧
    attemptedSources.length = 7 ∧
    (criticalDetails sampleSettleTideDown).length = 4 ∧
    "windData" ∈ attemptedSources ∧
    "windData" ∉ (criticalDetails sampleSettleTideDown).map Prod.fst := by
  refine ⟨rfl, rfl, rfl, by decide, by decide⟩

/-- C7 amended: the preference-aware route returns its critical failure
exactly when the tide lookup produced no reading (rejected or resolved
empty) — the absence of any other source never triggers it — and the
failure diagnostic always covers exactly the four sources tide, weather,
waves and waterQuality, not all seven attempted lookups. -/
theorem c7_critical_failure_iff_tide_absent :
    (∀ s : ConditionsSettle,
      conditionsCriticalCheck s
          = .criticalFailure "Unable to fetch critical tide data" (criticalDetails s)
        ↔ settledValue s.tide = none) ∧
    (∀ s : ConditionsSettle,
      (criticalDetails s).map Prod.fst = ["tide", "weather", "waves", "waterQuality"]) := by
  constructor
  · intro s
    unfold conditionsCriticalCheck
    cases h : settledValue s.tide <;> simp
  · intro s
    rfl

/-- C8: when the water-quality source is absent the orchestrator does
substitute a fallback tagged source = "unavailable", but because that
fallback carries no bacteria count the scorer returns score 100, status
safe, with NO issue — the 50/advisory/issue behaviour the claim describes
is produced only when the scorer itself receives null, which the
orchestrator never passes. -/
theorem c8_waterQuality_fallback_scores_100_safe :
    (waterQualityWithFallback none 0).source = some "unavailable" ∧
    scoreWaterQuality (some (waterQualityWithFallback none 0)) [] 0
      = { score := 100, status := .safe, bacteriaLevel := "unknown",
          recentSSO := false, daysSinceSSO := none, issues := [] } ∧
    scoreWaterQuality none [] 0
      = { score := 50, status := .advisory, bacteriaLevel := "unknown",
          recentSSO := false, daysSinceSSO := none,
          issues := ["No water quality data available"] } :=
  ⟨rfl, rfl, rfl⟩

/-- C9 counterexample: a genuine reading of height 0 ft that carries a real
source tag — height below the 2 ft calm band, so the claim requires score
100, calm — is scored 50, moderate, "No wave data available": the scorer
never consults the source tag. -/
theorem c9_zero_height_with_source_counterexample :
    sampleZeroWave.source = some "NOAA-buoy" ∧
    sampleZeroWave.waveHeightFeet < SAFETY_THRESHOLDS.waves.calm ∧
    scoreWaves (some sampleZeroWave)
      = { score := 50, heightFeet := 0, status := .moderate,
          issues := ["No wave data available"] } ∧
    (scoreWaves (some sampleZeroWave)).score ≠ 100 := by
  refine ⟨rfl, by decide, rfl, by decide⟩

/-- C9 amended: the wave factor is 50/moderate exactly when the reading is
absent or its height is zero — the source tag plays no role — and for every
nonzero height the claimed bands apply: below 2 ft 100 calm, below 3 ft 85
calm, below 5 ft 60 moderate, below 8 ft 30 rough, else 10 dangerous. -/
theorem c9_waves_score_characterization :
    ∀ w : Option WaveData,
      ((scoreWaves w).score, (scoreWaves w).status) = wavesAmendedScoreStatus w := by
  intro w
  cases w with
  | none => rfl
  | some w =>
      by_cases h0 : w.waveHeightFeet = 0 <;>
        simp only [scoreWaves, wavesAmendedScoreStatus, SAFETY_THRESHOLDS, h0] <;>
        split_ifs <;> simp_all

/-- C10: the wave chain uses a successful primary reading verbatim; if the
primary throws or resolves empty the outcome is exactly the secondary
provider's single outcome, used verbatim when it succeeds; and in every
case where both providers fail (throw or empty, in any combination) the
final reading is the fallback of height 0 tagged "unavailable". -/
theorem c10_wave_fallback_chain :
    (∀ (d : WaveData) (s : Except String (Option WaveData)),
      fetchWaveDataWithFallback (.ok (some d)) s = .ok (some d)) ∧
    (∀ s : Except String (Option WaveData),
      fetchWaveDataWithFallback (.ok none) s = s) ∧
    (∀ (e : String) (s : Except String (Option WaveData)),
      fetchWaveDataWithFallback (.error e) s = s) ∧
    (∀ (d : WaveData) (now : ℚ), wavesWithFallback (.ok (some d)) now = d) ∧
    (∀ (e₁ e₂ : String) (now : ℚ),
      wavesWithFallback (fetchWaveDataWithFallback (.error e₁) (.error e₂)) now
          = { timestamp := now, waveHeightFeet := 0, source := some "unavailable" } ∧
      wavesWithFallback (fetchWaveDataWithFallback (.error e₁) (.ok none)) now
          = { timestamp := now, waveHeightFeet := 0, source := some "unavailable" } ∧
      wavesWithFallback (fetchWaveDataWithFallback (.ok none) (.error e₂)) now
          = { timestamp := now, waveHeightFeet := 0, source := some "unavailable" } ∧
      wavesWithFallback (fetchWaveDataWithFallback (.ok none) (.ok none)) now
          = { timestamp := now, waveHeightFeet := 0, source := some "unavailable" }) :=
  ⟨fun _ _ => rfl, fun _ => rfl, fun _ _ => rfl, fun _ _ => rfl,
   fun _ _ _ => ⟨rfl, rfl, rfl, rfl⟩⟩

end Swimmingly
